import Mathlib

/-!
Shallow embedding of `src/options.py` from the conan-qt repository.

The module declares an option model for build recipes: an abstract
OptionBase with lifecycle hooks (collect_option, collect_default_option,
config_options, requirements, apply, get_value, is_enable, _is_available),
concrete rendering kinds (SimpleOption, PrependOption, NoOption,
YesNoOption, SystemQtOption, BinaryOption, ValueOption) that each define
an apply_option method, and two folding functions (make_options_dict,
make_default_options_dict).

Modelling choices, each traceable to the source:
* Python values that can live in an option store are modelled by `PyVal`
  (None, booleans, strings, integers, lists); Python truthiness by
  `truthy`, and Python str() by `pyStr`.
* The external recipe collaborator (`conan`) is a record holding the
  platform string (`str(conan.settings.os)`), the live option store
  (`conan.options`, a key to value map with attribute get and delete and
  indexed get), and the list of requirements registered through
  `conan.requires(...)`.  Attribute access on a missing name raises
  AttributeError, as in Python; this follows the spec description of the
  external interface and standard Python attribute semantics.
* Dictionaries are association lists without duplicate key creation:
  `dictInsert` overwrites the first binding with the given key in place
  (Python dict assignment), `dictGet` returns the first binding,
  `dictDel` removes the bindings with the given key (Python delattr on a
  real attribute store, where keys are unique).
* Subclass dispatch is a `kind` field: every concrete class overrides
  only `apply_option`; none overrides `apply_if_available`, whose
  OptionBase body is `pass`, so `apply_if_available` is the base no-op
  for every kind, exactly as in the source.
* Fallible methods return `Except PyError`.
-/

inductive PyVal where
  | none
  | bool (b : Bool)
  | str (s : String)
  | int (n : Int)
  | list (xs : List PyVal)

/-- Python truthiness: None is falsy, a bool is itself, a string is truthy
iff nonempty, an int is truthy iff nonzero, a list is truthy iff nonempty. -/
def truthy : PyVal → Bool
  | PyVal.none => false
  | PyVal.bool b => b
  | PyVal.str s => s != ""
  | PyVal.int n => n != 0
  | PyVal.list xs => !xs.isEmpty

mutual

/-- Python str() on the values this module passes to format: str(True) is
"True", str(None) is "None"; elements of a list are joined Python-style. -/
def pyStr : PyVal → String
  | PyVal.none => "None"
  | PyVal.bool true => "True"
  | PyVal.bool false => "False"
  | PyVal.str s => s
  | PyVal.int n => toString n
  | PyVal.list xs => "[" ++ pyStrJoin xs ++ "]"

/-- Comma-joined rendering of list elements, used by `pyStr`. -/
def pyStrJoin : List PyVal → String
  | [] => ""
  | [x] => pyStr x
  | x :: y :: xs => pyStr x ++ ", " ++ pyStrJoin (y :: xs)

end

/-- Errors the embedded methods can raise: AttributeError from attribute
access or deletion on a missing name, TypeError from a call that binds the
wrong number of positional arguments. -/
inductive PyError where
  | attributeError
  | typeError
deriving DecidableEq, Repr

/-- A Python dict with string keys, as an association list whose operations
never create duplicate keys. -/
abbrev PyDict := List (String × PyVal)

/-- First binding for a key, if any (dict lookup). -/
def dictGet : PyDict → String → Option PyVal
  | [], _ => Option.none
  | (k, v) :: rest, key => if k = key then some v else dictGet rest key

/-- Dict assignment `d[key] = v`: overwrite the first binding for `key` in
place, or append a new binding at the end. -/
def dictInsert : PyDict → String → PyVal → PyDict
  | [], key, v => [(key, v)]
  | (k, w) :: rest, key, v =>
      if k = key then (key, v) :: rest else (k, w) :: dictInsert rest key v

/-- Attribute deletion effect on the store: drop the bindings for `key`. -/
def dictDel (d : PyDict) (key : String) : PyDict :=
  d.filter (fun kv => kv.1 != key)

/-- The external recipe collaborator: platform string from
`str(conan.settings.os)`, the live option store `conan.options`, and the
requirements registered so far through `conan.requires`. -/
structure Conan where
  os : String
  store : PyDict
  required : List PyVal

/-- `getattr(conan.options, name)` and `conan.options[name]`: the live
value for `name`, AttributeError when absent. -/
def Conan.getOpt (c : Conan) (name : String) : Except PyError PyVal :=
  match dictGet c.store name with
  | some v => Except.ok v
  | Option.none => Except.error PyError.attributeError

/-- `delattr(conan.options, name)`: remove the binding; AttributeError when
the name is absent, as delattr on a missing attribute. -/
def Conan.delOpt (c : Conan) (name : String) : Except PyError Conan :=
  match dictGet c.store name with
  | some _ => Except.ok (Conan.mk c.os (dictDel c.store name) c.required)
  | Option.none => Except.error PyError.attributeError

/-- `conan.requires(r)`: append `r` to the registered requirements. -/
def Conan.requires (c : Conan) (r : PyVal) : Conan :=
  Conan.mk c.os c.store (c.required ++ [r])

/-- The concrete class of an option object, with the extra constructor
fields of that class.  `base` is a plain OptionBase instance. -/
inductive OptionKind where
  | base
  | simple (option : String)
  | prepend (option yesPfx noPfx : String)
  | no (option : String)
  | yesNo (option : String)
  | systemQt (option : String)
  | binary (yesOption noOption : String)
  | value (option : String)

/-- An option object: the OptionBase fields `_name`, `_values`,
`_default_value`, `_os_availability`, `_requirements`, plus the concrete
class tag carrying the subclass fields. -/
structure OptionBase where
  name : String
  values : List PyVal
  defaultValue : PyVal
  osAvailability : Option (List String)
  requirements : PyVal
  kind : OptionKind

/-- `collect_option`: `options[self._name] = self._values`. -/
def OptionBase.collect_option (o : OptionBase) (options : PyDict) : PyDict :=
  dictInsert options o.name (PyVal.list o.values)

/-- `collect_default_option`: `default_options[self._name] = self._default_value`. -/
def OptionBase.collect_default_option (o : OptionBase) (defaults : PyDict) : PyDict :=
  dictInsert defaults o.name o.defaultValue

/-- `_is_available`: True iff `_os_availability` is None or the platform
string is a member of it. -/
def OptionBase.is_available (o : OptionBase) (c : Conan) : Bool :=
  match o.osAvailability with
  | Option.none => true
  | some avail => avail.contains c.os

/-- `config_options`: `if not self._is_available(conan): delattr(conan.options, self._name)`. -/
def OptionBase.config_options (o : OptionBase) (c : Conan) : Except PyError Conan :=
  if o.is_available c then Except.ok c else c.delOpt o.name

/-- `get_value`: `getattr(conan.options, self._name)`. -/
def OptionBase.get_value (o : OptionBase) (c : Conan) : Except PyError PyVal :=
  c.getOpt o.name

/-- Python `v is True`: identity with the boolean True object, true for no
other value, truthy or not. -/
def isTrueVal : PyVal → Bool
  | PyVal.bool true => true
  | _ => false

/-- `is_enable`: `self.get_value(conan) is True` — identity with the
boolean True, not truthiness. -/
def OptionBase.is_enable (o : OptionBase) (c : Conan) : Except PyError Bool :=
  match o.get_value c with
  | Except.ok v => Except.ok (isTrueVal v)
  | Except.error e => Except.error e

/-- `requirements` method: register `_requirements` when
`self._is_available(conan) and self._requirements and self.is_enable(conan)`;
the conjunction short-circuits left to right. -/
def OptionBase.requirementsRun (o : OptionBase) (c : Conan) : Except PyError Conan :=
  if o.is_available c && truthy o.requirements then
    match o.is_enable c with
    | Except.ok true => Except.ok (c.requires o.requirements)
    | Except.ok false => Except.ok c
    | Except.error e => Except.error e
  else Except.ok c

/-- `apply_if_available`: the OptionBase body is `pass`, and no concrete
class in the module overrides it (the concrete classes define
`apply_option` instead), so for every kind this is the inherited no-op. -/
def OptionBase.apply_if_available (_o : OptionBase) (_c : Conan) (args : List String) :
    List String :=
  args

/-- `apply`: return unchanged when unavailable, else call
`self.apply_if_available(conan, args)`. -/
def OptionBase.applyRun (o : OptionBase) (c : Conan) (args : List String) : List String :=
  if o.is_available c then o.apply_if_available c args else args

/-- `apply_option`, as defined by each concrete class; OptionBase itself
has no such method, so calling it on a plain base instance is an
AttributeError. -/
def OptionBase.apply_option (o : OptionBase) (c : Conan) (args : List String) :
    Except PyError (List String) :=
  match o.kind with
  | OptionKind.base => Except.error PyError.attributeError
  | OptionKind.simple option =>
      match o.get_value c with
      | Except.ok v =>
          Except.ok (if truthy v then args ++ ["-" ++ option] else args)
      | Except.error e => Except.error e
  | OptionKind.prepend option yesPfx noPfx =>
      match o.get_value c with
      | Except.ok v =>
          Except.ok (args ++
            [if truthy v then "-" ++ yesPfx ++ option else "-" ++ noPfx ++ option])
      | Except.error e => Except.error e
  | OptionKind.no option =>
      match o.get_value c with
      | Except.ok v =>
          Except.ok (args ++
            [if truthy v then "-" ++ "" ++ option else "-" ++ "no-" ++ option])
      | Except.error e => Except.error e
  | OptionKind.yesNo option =>
      match c.getOpt o.name with
      | Except.ok v =>
          Except.ok (args ++ ["--" ++ option ++ "=" ++ if truthy v then "yes" else "no"])
      | Except.error e => Except.error e
  | OptionKind.systemQt option =>
      match c.getOpt o.name with
      | Except.ok v =>
          Except.ok (args ++ ["--" ++ option ++ "=" ++ if truthy v then "system" else "qt"])
      | Except.error e => Except.error e
  | OptionKind.binary yesOption noOption =>
      match c.getOpt o.name with
      | Except.ok v =>
          Except.ok (args ++ ["-" ++ if truthy v then yesOption else noOption])
      | Except.error e => Except.error e
  | OptionKind.value option =>
      match c.getOpt o.name with
      | Except.ok v => Except.ok (args ++ ["-" ++ option ++ "=" ++ pyStr v])
      | Except.error e => Except.error e

/-- `make_options_dict`: fold `collect_option` over the option objects
left to right into `options` and return the result. -/
def make_options_dict (options : PyDict) (optionObjects : List OptionBase) : PyDict :=
  optionObjects.foldl (fun acc o => o.collect_option acc) options

/-- `make_default_options_dict`: fold `collect_default_option` over the
option objects left to right into `default_options` and return it. -/
def make_default_options_dict (defaults : PyDict) (optionObjects : List OptionBase) :
    PyDict :=
  optionObjects.foldl (fun acc o => o.collect_default_option acc) defaults

/-- Python positional-argument binding for `PrependOption.__init__`: after
self it has five required parameters (name, default_value, option,
yes_prefix, no_prefix) and two defaulted ones (os_availability=None,
requirements=None).  Binding succeeds iff between five and seven
positional arguments are supplied, padding the defaulted parameters with
None; otherwise the call raises TypeError. -/
def prependInitBind (args : List PyVal) : Except PyError (List PyVal) :=
  if 5 ≤ args.length ∧ args.length ≤ 7 then
    Except.ok (args ++ List.replicate (7 - args.length) PyVal.none)
  else Except.error PyError.typeError

/-- The positional argument list `NoOption.__init__` passes to
`super().__init__`, which is `PrependOption.__init__`: name,
[True, False], default_value, option, "", "no-", os_availability,
requirements — eight arguments. -/
def noOptionSuperArgs (name defaultValue option osAvailability requirements : PyVal) :
    List PyVal :=
  [name, PyVal.list [PyVal.bool true, PyVal.bool false], defaultValue, option,
   PyVal.str "", PyVal.str "no-", osAvailability, requirements]

/-- `NoOption.__init__`: forward the eight positional arguments to
`PrependOption.__init__` under Python binding rules. -/
def noOptionInit (name defaultValue option osAvailability requirements : PyVal) :
    Except PyError (List PyVal) :=
  prependInitBind (noOptionSuperArgs name defaultValue option osAvailability requirements)

/-! ## Concrete instances used in closed statements -/

/-- An always-available SimpleOption named "foo" rendering the flag "bar",
with the obligatory [True, False] value domain and default True. -/
def fooSimple : OptionBase :=
  OptionBase.mk "foo" [PyVal.bool true, PyVal.bool false] (PyVal.bool true)
    Option.none PyVal.none (OptionKind.simple "bar")

/-- A Linux-only SimpleOption named "foo" rendering the flag "bar". -/
def fooLinuxOnly : OptionBase :=
  OptionBase.mk "foo" [PyVal.bool true, PyVal.bool false] (PyVal.bool true)
    (some ["Linux"]) PyVal.none (OptionKind.simple "bar")

/-- An always-available SimpleOption named "foo" carrying a dependency
requirement string. -/
def fooWithReq : OptionBase :=
  OptionBase.mk "foo" [PyVal.bool true, PyVal.bool false] (PyVal.bool true)
    Option.none (PyVal.str "zlib/1.2.11") (OptionKind.simple "bar")

/-- A Linux recipe whose live store maps "foo" to the boolean True. -/
def linuxFooTrue : Conan := Conan.mk "Linux" [("foo", PyVal.bool true)] []

/-- A Linux recipe whose live store maps "foo" to the string "True"
(truthy but not the boolean True). -/
def linuxFooStrTrue : Conan := Conan.mk "Linux" [("foo", PyVal.str "True")] []

/-- A Windows recipe whose live store maps "foo" to the boolean True. -/
def winFooTrue : Conan := Conan.mk "Windows" [("foo", PyVal.bool true)] []

/-- Two option objects sharing the name "dup" with different value
domains, to exercise duplicate-name folding. -/
def dupA : OptionBase :=
  OptionBase.mk "dup" [PyVal.bool true, PyVal.bool false] (PyVal.bool true)
    Option.none PyVal.none (OptionKind.simple "a")

/-- Second option object named "dup", with a string value domain. -/
def dupB : OptionBase :=
  OptionBase.mk "dup" [PyVal.str "x", PyVal.str "y"] (PyVal.str "x")
    Option.none PyVal.none (OptionKind.value "b")

/-! ## Helper lemmas about the dictionary model -/

theorem dictGet_insert_self (m : PyDict) (key : String) (v : PyVal) :
    dictGet (dictInsert m key v) key = some v := by
  induction m with
  | nil => simp [dictInsert, dictGet]
  | cons hd tl ih =>
      obtain ⟨k1, v1⟩ := hd
      by_cases h : k1 = key
      · simp [dictInsert, dictGet, h]
      · simp [dictInsert, dictGet, h, ih]

theorem dictGet_insert_ne (m : PyDict) (key k : String) (v : PyVal) (h : k ≠ key) :
    dictGet (dictInsert m key v) k = dictGet m k := by
  induction m with
  | nil => simp [dictInsert, dictGet, Ne.symm h]
  | cons hd tl ih =>
      obtain ⟨k1, v1⟩ := hd
      by_cases h1 : k1 = key
      · subst h1
        simp [dictInsert, dictGet, Ne.symm h]
      · simp [dictInsert, dictGet, h1, ih]

theorem dictInsert_idem (m : PyDict) (key : String) (v : PyVal) :
    dictInsert (dictInsert m key v) key v = dictInsert m key v := by
  induction m with
  | nil => simp [dictInsert]
  | cons hd tl ih =>
      obtain ⟨k1, v1⟩ := hd
      by_cases h : k1 = key
      · simp [dictInsert, h]
      · simp [dictInsert, h, ih]

theorem dictGet_del_self (d : PyDict) (key : String) :
    dictGet (dictDel d key) key = Option.none := by
  induction d with
  | nil => rfl
  | cons hd tl ih =>
      obtain ⟨k1, v1⟩ := hd
      by_cases h : k1 = key
      · simpa [dictDel, List.filter_cons, h] using ih
      · simpa [dictDel, List.filter_cons, h, dictGet] using ih

theorem isTrueVal_eq_true_iff (v : PyVal) : isTrueVal v = true ↔ v = PyVal.bool true := by
  cases v with
  | bool b => cases b <;> simp [isTrueVal]
  | none => simp [isTrueVal]
  | str s => simp [isTrueVal]
  | int n => simp [isTrueVal]
  | list xs => simp [isTrueVal]

theorem is_enable_char (o : OptionBase) (c : Conan) (v : PyVal)
    (hv : o.get_value c = Except.ok v) :
    o.is_enable c = Except.ok (isTrueVal v) := by
  unfold OptionBase.is_enable
  rw [hv]

/-! ## Claim theorems -/

/-- C1 (code evaluation at the failing input): for an available
SimpleOption named "foo" rendering "bar", with live value the boolean
True, the `apply` method leaves the argument list unchanged, while the
rendering that the claim (and the docstrings of the source) expect to run
lives in `apply_option`, which would append "-bar" but is never called by
`apply`: `apply` dispatches to `apply_if_available`, whose only
definition in the module is the OptionBase `pass`. -/
theorem apply_never_renders_simple :
    OptionBase.applyRun fooSimple linuxFooTrue [] = ([] : List String) ∧
    OptionBase.apply_option fooSimple linuxFooTrue [] = Except.ok ["-bar"] :=
  ⟨rfl, rfl⟩

/-- C2 counterexample: for a Linux-only option on a Windows recipe whose
store holds "foo", the first config_options call succeeds and removes the
attribute, and the second call on the resulting state fails with
AttributeError — so calling twice does not succeed with the same effect
as calling once. -/
theorem config_options_twice_fails :
    OptionBase.config_options fooLinuxOnly winFooTrue =
      Except.ok (Conan.mk "Windows" [] []) ∧
    OptionBase.config_options fooLinuxOnly (Conan.mk "Windows" [] []) =
      Except.error PyError.attributeError :=
  ⟨rfl, rfl⟩

/-- C2 (amended): config_options removes the option attribute iff the
option is unavailable; it is a no-op, hence idempotent, when the option
is available; when unavailable it removes a present attribute, after
which the name is gone from the store and a second call fails with
AttributeError (and when the attribute is already absent the call fails
immediately), so the unavailable case is not idempotent. -/
theorem config_options_removal (o : OptionBase) (c : Conan) :
    (o.is_available c = true → o.config_options c = Except.ok c) ∧
    (o.is_available c = false → (dictGet c.store o.name).isSome = true →
      o.config_options c =
          Except.ok (Conan.mk c.os (dictDel c.store o.name) c.required) ∧
        dictGet (dictDel c.store o.name) o.name = Option.none ∧
        OptionBase.config_options o (Conan.mk c.os (dictDel c.store o.name) c.required) =
          Except.error PyError.attributeError) ∧
    (o.is_available c = false → (dictGet c.store o.name).isSome = false →
      o.config_options c = Except.error PyError.attributeError) := by
  have hsame : o.is_available (Conan.mk c.os (dictDel c.store o.name) c.required) =
      o.is_available c := rfl
  refine ⟨?_, ?_, ?_⟩
  · intro h
    simp [OptionBase.config_options, h]
  · intro h hs
    cases hg : dictGet c.store o.name with
    | none => rw [hg] at hs; simp at hs
    | some v =>
        refine ⟨?_, dictGet_del_self c.store o.name, ?_⟩
        · simp [OptionBase.config_options, h, Conan.delOpt, hg]
        · rw [OptionBase.config_options, hsame, h]
          simp [Conan.delOpt, dictGet_del_self]
  · intro h hs
    cases hg : dictGet c.store o.name with
    | none => simp [OptionBase.config_options, h, Conan.delOpt, hg]
    | some v => rw [hg] at hs; simp at hs

/-- Witness for C2 (amended), at the Linux-only option on a Windows
recipe holding "foo". -/
theorem config_options_removal_witness :
    OptionBase.is_available fooLinuxOnly winFooTrue = false ∧
    (dictGet winFooTrue.store fooLinuxOnly.name).isSome = true ∧
    (OptionBase.config_options fooLinuxOnly winFooTrue =
        Except.ok (Conan.mk "Windows" [] []) ∧
      dictGet ([] : PyDict) "foo" = Option.none ∧
      OptionBase.config_options fooLinuxOnly (Conan.mk "Windows" [] []) =
        Except.error PyError.attributeError) :=
  ⟨rfl, rfl, (config_options_removal fooLinuxOnly winFooTrue).2.1 rfl rfl⟩

/-- C3: the requirements hook registers the stored requirement with the
recipe iff the option is available, a requirement is set (truthy), and
the live value is the boolean True; in every other case the recipe is
returned unchanged. -/
theorem requirements_register_iff (o : OptionBase) (c : Conan) (v : PyVal)
    (hv : o.get_value c = Except.ok v) :
    o.requirementsRun c =
      Except.ok
        (if o.is_available c && truthy o.requirements && isTrueVal v
         then c.requires o.requirements else c) := by
  have he := is_enable_char o c v hv
  unfold OptionBase.requirementsRun
  cases hA : o.is_available c <;> cases hT : truthy o.requirements <;>
    cases hV : isTrueVal v <;> simp [he, hA, hT, hV]

/-- Witness for C3: an available option with a set requirement and live
value True registers exactly that requirement. -/
theorem requirements_register_iff_witness :
    OptionBase.get_value fooWithReq linuxFooTrue = Except.ok (PyVal.bool true) ∧
    OptionBase.requirementsRun fooWithReq linuxFooTrue =
      Except.ok (Conan.mk "Linux" [("foo", PyVal.bool true)] [PyVal.str "zlib/1.2.11"]) :=
  ⟨rfl, requirements_register_iff fooWithReq linuxFooTrue (PyVal.bool true) rfl⟩

/-- C4: collect_option binds exactly the option name to its value domain,
collect_default_option binds exactly the name to its default value, and
both calls are idempotent on any destination mapping. -/
theorem collect_insert_idempotent (o : OptionBase) (m : PyDict) :
    dictGet (o.collect_option m) o.name = some (PyVal.list o.values) ∧
    o.collect_option (o.collect_option m) = o.collect_option m ∧
    dictGet (o.collect_default_option m) o.name = some o.defaultValue ∧
    o.collect_default_option (o.collect_default_option m) = o.collect_default_option m :=
  ⟨dictGet_insert_self m o.name (PyVal.list o.values),
   dictInsert_idem m o.name (PyVal.list o.values),
   dictGet_insert_self m o.name o.defaultValue,
   dictInsert_idem m o.name o.defaultValue⟩

/-- C5: make_options_dict folds collect_option over the option list left
to right into the destination mapping, and with two options of equal name
folded into an empty mapping the result is the single binding to the
second option's value domain (last write wins). -/
theorem make_options_dict_last_write_wins (m : PyDict) (o1 o2 : OptionBase)
    (h : o1.name = o2.name) :
    make_options_dict m [o1, o2] =
      OptionBase.collect_option o2 (OptionBase.collect_option o1 m) ∧
    make_options_dict [] [o1, o2] = [(o2.name, PyVal.list o2.values)] := by
  refine ⟨rfl, ?_⟩
  simp [make_options_dict, OptionBase.collect_option, dictInsert, h]

/-- Witness for C5 at two concrete options sharing the name "dup". -/
theorem make_options_dict_last_write_wins_witness :
    dupA.name = dupB.name ∧
    make_options_dict [] [dupA, dupB] =
      [("dup", PyVal.list [PyVal.str "x", PyVal.str "y"])] :=
  ⟨rfl, (make_options_dict_last_write_wins [] dupA dupB rfl).2⟩

/-- C6: once config_options has removed the option attribute (which it
does exactly when the option is unavailable), a subsequent get_value on
the resulting recipe state fails with AttributeError. -/
theorem get_value_fails_after_removal (o : OptionBase) (c c2 : Conan)
    (h1 : o.is_available c = false) (h2 : o.config_options c = Except.ok c2) :
    o.get_value c2 = Except.error PyError.attributeError := by
  unfold OptionBase.config_options at h2
  rw [h1] at h2
  simp at h2
  unfold Conan.delOpt at h2
  cases hg : dictGet c.store o.name with
  | none => rw [hg] at h2; simp at h2
  | some v =>
      rw [hg] at h2
      have hc2 := Except.ok.inj h2
      subst hc2
      simp [OptionBase.get_value, Conan.getOpt, dictGet_del_self]

/-- Witness for C6: the Linux-only option on a Windows recipe is removed
by config_options, and get_value then fails. -/
theorem get_value_fails_after_removal_witness :
    OptionBase.is_available fooLinuxOnly winFooTrue = false ∧
    OptionBase.config_options fooLinuxOnly winFooTrue =
      Except.ok (Conan.mk "Windows" [] []) ∧
    OptionBase.get_value fooLinuxOnly (Conan.mk "Windows" [] []) =
      Except.error PyError.attributeError :=
  ⟨rfl, rfl,
   get_value_fails_after_removal fooLinuxOnly winFooTrue (Conan.mk "Windows" [] []) rfl rfl⟩

/-- C7 (code evaluation at the failing input): constructing
NoOption("foo", True, "bar") forwards eight positional arguments — an
extra [True, False] among them — to PrependOption.__init__, which accepts
at most seven, so the construction raises TypeError instead of producing
a PrependOption specialised with empty yes prefix and "no-" prefix. -/
theorem no_option_init_type_error :
    noOptionInit (PyVal.str "foo") (PyVal.bool true) (PyVal.str "bar")
      PyVal.none PyVal.none = Except.error PyError.typeError := rfl

/-- C8: is_enable is true iff the live value read by get_value is exactly
the boolean True; any truthy value other than the boolean True yields
false. -/
theorem is_enable_iff_bool_true (o : OptionBase) (c : Conan) (v : PyVal)
    (hv : o.get_value c = Except.ok v) :
    (o.is_enable c = Except.ok true ↔ v = PyVal.bool true) ∧
    (truthy v = true → v ≠ PyVal.bool true → o.is_enable c = Except.ok false) := by
  have he := is_enable_char o c v hv
  constructor
  · rw [he]
    constructor
    · intro h
      exact (isTrueVal_eq_true_iff v).mp (Except.ok.inj h)
    · intro h
      subst h
      rfl
  · intro _ hne
    rw [he]
    have hf : isTrueVal v = false := by
      cases hvv : isTrueVal v
      · rfl
      · exact absurd ((isTrueVal_eq_true_iff v).mp hvv) hne
    rw [hf]

/-- Witness for C8 at the live value "True" (a truthy string): get_value
returns it and is_enable is false. -/
theorem is_enable_iff_bool_true_witness :
    OptionBase.get_value fooSimple linuxFooStrTrue = Except.ok (PyVal.str "True") ∧
    truthy (PyVal.str "True") = true ∧
    PyVal.str "True" ≠ PyVal.bool true ∧
    OptionBase.is_enable fooSimple linuxFooStrTrue = Except.ok false :=
  ⟨rfl, rfl, fun h => PyVal.noConfusion h,
   (is_enable_iff_bool_true fooSimple linuxFooStrTrue (PyVal.str "True") rfl).2 rfl
     (fun h => PyVal.noConfusion h)⟩

/-- C9: SimpleOption's rendering condition is truthiness, not identity
with the boolean True: with live value the string "True", apply_option
appends the flag while is_enable on the same state is false. -/
theorem simple_render_truthy_vs_is_enable :
    OptionBase.apply_option fooSimple linuxFooStrTrue [] = Except.ok ["-bar"] ∧
    OptionBase.is_enable fooSimple linuxFooStrTrue = Except.ok false :=
  ⟨rfl, rfl⟩

/-- C10: collect_option and collect_default_option change at most the
binding for the option's own name: lookup at any other key is unchanged. -/
theorem collect_frame (o : OptionBase) (m : PyDict) (k : String) (h : k ≠ o.name) :
    dictGet (o.collect_option m) k = dictGet m k ∧
    dictGet (o.collect_default_option m) k = dictGet m k :=
  ⟨dictGet_insert_ne m o.name k (PyVal.list o.values) h,
   dictGet_insert_ne m o.name k o.defaultValue h⟩

/-- Witness for C10: inserting "foo" leaves the binding at "other" intact. -/
theorem collect_frame_witness :
    "other" ≠ fooSimple.name ∧
    dictGet (OptionBase.collect_option fooSimple [("other", PyVal.int 5)]) "other" =
      dictGet [("other", PyVal.int 5)] "other" ∧
    dictGet (OptionBase.collect_default_option fooSimple [("other", PyVal.int 5)]) "other" =
      dictGet [("other", PyVal.int 5)] "other" :=
  ⟨by decide,
   (collect_frame fooSimple [("other", PyVal.int 5)] "other" (by decide)).1,
   (collect_frame fooSimple [("other", PyVal.int 5)] "other" (by decide)).2⟩
